import Mathlib

/-!
Shallow embedding of the markt_monitor trading bot (Python) in Lean 4,
with theorems checking the natural-language specification against the code.

Conventions used throughout:
* Python floats are modelled as `ℚ` (all arithmetic in the embedded code is
  exact decimal arithmetic on small values).
* Python `datetime` values are modelled as rational epoch-second timestamps;
  `datetime` subtraction followed by `.total_seconds()` becomes plain
  subtraction on `ℚ`.
* Python sets of market-id strings are modelled as `List String` with
  membership; `dict[str, datetime]` becomes an association list
  `List (String × ℚ)` read through `List.lookup` (a fresh assignment conses,
  which shadows exactly like a dict write; `del` filters the key out).
* Python truthiness tests on optional strings/floats are modelled explicitly
  (`None` and `""` / `0.0` are falsy).
* External collaborators (HTTP APIs, RPC endpoints, the order-placement call,
  the price feed) are passed in as environment records of functions, so the
  embedded control flow is exactly the source's.
-/

namespace MarktMonitor

/-- Fields of `TradingConfig` in src/config/settings.py (lines 13-83) that the
embedded code reads, with the defaults declared there. -/
structure TradingConfig where
  POSITION_SIZE_USD : ℚ := 1
  PROFIT_TARGET_PERCENT : ℚ := 10
  TIME_WINDOW_MINUTES : ℕ := 10
  MAX_NO_PRICE : ℚ := 85 / 100
  MAX_POSITION_HOURS : ℕ := 24
  STOP_LOSS_PERCENT : ℚ := -20
  POSITION_SIDE : String := "NO"
deriving Repr

/-- The complete list of field names declared on the pydantic `TradingConfig`
class in src/config/settings.py lines 13-83.  `model_config` uses
`extra="ignore"`, so any attribute outside this list is undefined and reading
it raises `AttributeError`. -/
def tradingConfigFieldNames : List String :=
  ["INITIAL_DEPOSIT_USD", "POSITION_SIZE_USD", "PROFIT_TARGET_PERCENT",
   "MIN_LIQUIDITY_USD", "TIME_WINDOW_MINUTES", "MAX_NO_PRICE",
   "MAX_OPEN_POSITIONS", "MAX_POSITION_HOURS", "STOP_LOSS_PERCENT",
   "TRADING_STRATEGY", "POSITION_SIDE", "API_ROTATION_ENABLED",
   "REQUEST_DELAY_SECONDS", "POSITION_MONITOR_INTERVAL_SECONDS",
   "MAX_DAILY_TRADES_CONSERVATIVE", "MAX_DAILY_TRADES_AGGRESSIVE",
   "USE_PROXY", "PROXY_LIST", "PROXY_ROTATION_ENABLED"]

/-- Numeric attribute access `getattr(config.trading, name)` for the names the
trading engine reads as numbers.  A name that is not a declared field of
`TradingConfig` yields `none` (Python: `AttributeError`). -/
def tradingGetNumAttr (c : TradingConfig) (name : String) : Option ℚ :=
  if name = "POSITION_SIZE_USD" then some c.POSITION_SIZE_USD
  else if name = "PROFIT_TARGET_PERCENT" then some c.PROFIT_TARGET_PERCENT
  else if name = "TIME_WINDOW_MINUTES" then some (c.TIME_WINDOW_MINUTES : ℚ)
  else if name = "MAX_NO_PRICE" then some c.MAX_NO_PRICE
  else if name = "MAX_POSITION_HOURS" then some (c.MAX_POSITION_HOURS : ℚ)
  else if name = "STOP_LOSS_PERCENT" then some c.STOP_LOSS_PERCENT
  else none

/-- Default `TradingConfig` (the defaults in settings.py). -/
def defaultTradingConfig : TradingConfig := {}

/-- One entry of a market's `tokens` list (CLOB format): we keep the fields
`_get_target_token_id` reads. -/
structure Token where
  name : String := ""
  id : Option String := none
deriving Repr, DecidableEq

/-- A market record, with the keys read by the filter.  Missing keys are the
`.get` defaults of the source (`active` -> False, `accepting_orders` -> False,
`closed` -> True). -/
structure Market where
  question_id : Option String := none
  condition_id : Option String := none
  market_slug : Option String := none
  tokens : List Token := []
  outcomes : List Token := []
  active : Bool := false
  accepting_orders : Bool := false
  closed : Bool := true
deriving Repr

/-- Python truthiness of an optional string: `None` and `""` are falsy. -/
def truthyStr (o : Option String) : Option String :=
  match o with
  | some s => if s = "" then none else some s
  | none => none

/-- `market_data.get("question_id") or market_data.get("condition_id") or
market_data.get("market_slug")` (trading_engine.py lines 84, 133, 219, 328). -/
def marketId (m : Market) : Option String :=
  match truthyStr m.question_id with
  | some i => some i
  | none =>
    match truthyStr m.condition_id with
    | some i => some i
    | none => truthyStr m.market_slug

/-- State of `MarketFilter` (trading_engine.py lines 17-30). -/
structure MarketFilter where
  processed_markets : List String := []
  known_markets : List String := []
  new_markets_timestamps : List (String × ℚ) := []
  markets_with_positions : List String := []
deriving Repr, DecidableEq

/-- Rejection/acceptance reasons returned by the filter, one constructor per
distinct string literal in the source. -/
inductive Reason where
  /-- "Отсутствует ID рынка" (should_trade_market, line 135) -/
  | missingId
  /-- "Рынок уже обработан" (line 138) -/
  | alreadyProcessed
  /-- "Не бинарный рынок" (line 141) -/
  | notBinary
  /-- "Рынок неактивен или не принимает ордера" (line 144) -/
  | inactive
  /-- "Отсутствует ID рынка для проверки времени" (check_time_window, line 86) -/
  | missingIdTime
  /-- "Рынок с активной позицией" (line 91) -/
  | activePosition
  /-- "Недавно обнаружен (...)" (line 110) -/
  | recentlyDiscovered
  /-- "Рынок устарел (...)" (line 115) -/
  | expired
  /-- "Рынок был обнаружен ранее" (line 118) -/
  | discoveredEarlier
  /-- "Новый рынок обнаружен" (line 129) -/
  | newMarket
  /-- "Рынок подходит для торговли" (line 152) -/
  | suitable
deriving Repr, DecidableEq

/-- `MarketFilter.is_binary_market` (trading_engine.py lines 53-62): use
`tokens` when the list is non-empty (truthy), otherwise fall back to
`outcomes`. -/
def is_binary_market (m : Market) : Bool :=
  match m.tokens with
  | [] => m.outcomes.length = 2
  | _ :: _ => m.tokens.length = 2

/-- `MarketFilter.check_liquidity_requirement` (lines 64-78): the market must
be active, accepting orders and not closed. -/
def check_liquidity_requirement (m : Market) : Bool :=
  m.active && m.accepting_orders && !m.closed

/-- `MarketFilter.check_time_window` (lines 80-129).  `now` is the value of
`datetime.utcnow()` as epoch seconds. -/
def check_time_window (cfg : TradingConfig) (s : MarketFilter) (now : ℚ)
    (m : Market) : MarketFilter × Bool × Reason :=
  match marketId m with
  | none => (s, false, Reason.missingIdTime)
  | some i =>
    if i ∈ s.markets_with_positions then
      (s, true, Reason.activePosition)
    else if i ∈ s.known_markets then
      match List.lookup i s.new_markets_timestamps with
      | some discovery_time =>
        if now - discovery_time ≤ (cfg.TIME_WINDOW_MINUTES : ℚ) * 60 then
          (s, true, Reason.recentlyDiscovered)
        else
          ({s with new_markets_timestamps :=
              s.new_markets_timestamps.filter (fun p => !(p.1 == i))},
           false, Reason.expired)
      | none => (s, false, Reason.discoveredEarlier)
    else
      ({s with known_markets := i :: s.known_markets,
               new_markets_timestamps := (i, now) :: s.new_markets_timestamps},
       true, Reason.newMarket)

/-- `MarketFilter.should_trade_market` (lines 131-152). -/
def should_trade_market (cfg : TradingConfig) (s : MarketFilter) (now : ℚ)
    (m : Market) : MarketFilter × Bool × Reason :=
  match marketId m with
  | none => (s, false, Reason.missingId)
  | some i =>
    if i ∈ s.processed_markets then (s, false, Reason.alreadyProcessed)
    else if !is_binary_market m then (s, false, Reason.notBinary)
    else if !check_liquidity_requirement m then (s, false, Reason.inactive)
    else
      let r := check_time_window cfg s now m
      if r.2.1 then
        ({r.1 with processed_markets := i :: r.1.processed_markets},
         true, Reason.suitable)
      else (r.1, false, r.2.2)

/-- `MarketFilter.cleanup_old_markets` (lines 32-51): drop cache entries older
than the time window, except for markets that have an open position. -/
def cleanup_old_markets (cfg : TradingConfig) (s : MarketFilter) (now : ℚ) :
    MarketFilter :=
  {s with new_markets_timestamps :=
    s.new_markets_timestamps.filter (fun p =>
      decide (p.1 ∈ s.markets_with_positions) ||
      decide (now - p.2 ≤ (cfg.TIME_WINDOW_MINUTES : ℚ) * 60))}

/-! ## Trade attempt (`TradingEngine._attempt_trade`, trading_engine.py 292-331) -/

/-- A placed order, as passed to `self.client.place_order`. -/
structure OrderRequest where
  token_id : String
  side : String
  size : ℚ
  price : ℚ
deriving Repr, DecidableEq

/-- External collaborators of `_attempt_trade`: the price feed
(`get_current_price`, `None`/`0.0` falsy), the balance aggregator
(`get_account_balance`), and whether `place_order` returns a truthy result. -/
structure TradeEnv where
  price : String → Option ℚ
  balance : ℚ
  orderSucceeds : Bool

/-- Python exceptions that the embedded engine code can raise. -/
inductive PyErr where
  /-- `AttributeError` from reading an attribute that the pydantic settings
  class does not declare. -/
  | attributeError (name : String)
deriving Repr, DecidableEq

/-- `TradingEngine._get_target_token_id` (lines 333-339): first token whose
name contains the configured side as a substring; its `id` is returned
directly (possibly `None`). -/
def get_target_token_id (cfg : TradingConfig) (m : Market) : Option String :=
  let rec go : List Token → Option String
    | [] => none
    | t :: ts =>
      if cfg.POSITION_SIDE = "YES" && ("YES".toList.IsInfix t.name.toList : Bool) then t.id
      else if cfg.POSITION_SIDE = "NO" && ("NO".toList.IsInfix t.name.toList : Bool) then t.id
      else go ts
  go m.tokens

/-- `TradingEngine._attempt_trade` (lines 292-331).  Returns the updated
filter state and the order placed (if any); `Except` carries a Python
exception escaping the function.  Note that line 312 reads
`config.trading.MAX_POSITION_PERCENT_OF_BALANCE`, an attribute resolved with
`tradingGetNumAttr`. -/
def attempt_trade (cfg : TradingConfig) (env : TradeEnv)
    (is_trading_enabled : Bool) (s : MarketFilter) (m : Market) :
    Except PyErr (MarketFilter × Option OrderRequest) :=
  if !is_trading_enabled then Except.ok (s, none)
  else
    match truthyStr (get_target_token_id cfg m) with
    | none => Except.ok (s, none)
    | some token_id =>
      match env.price token_id with
      | none => Except.ok (s, none)
      | some price =>
        if price = 0 then Except.ok (s, none)
        else if cfg.POSITION_SIDE = "NO" && decide (price > cfg.MAX_NO_PRICE) then
          Except.ok (s, none)
        else
          let balance := env.balance
          if balance = 0 then Except.ok (s, none)
          else
            match tradingGetNumAttr cfg "MAX_POSITION_PERCENT_OF_BALANCE" with
            | none => Except.error (PyErr.attributeError "MAX_POSITION_PERCENT_OF_BALANCE")
            | some pctOfBalance =>
              let max_position_from_balance := balance * (pctOfBalance / 100)
              let position_size_usd := min cfg.POSITION_SIZE_USD max_position_from_balance
              let size := position_size_usd / price
              if env.orderSucceeds then
                let s' :=
                  match marketId m with
                  | some i => {s with markets_with_positions := i :: s.markets_with_positions}
                  | none => s
                Except.ok (s', some ⟨token_id, "BUY", size, price⟩)
              else Except.ok (s, none)

/-! ## Position closing (`polymarket_client.py` 623-687) -/

/-- An open position row as stored by the database manager; only the fields
the close routine reads. -/
structure Position where
  token_id : String := ""
  entry_price : ℚ := 0
  target_profit : Option ℚ := none
  stop_loss : Option ℚ := none
  created_at : ℚ := 0
deriving Repr

/-- Reasons to close (or keep) a position, one constructor per string built in
`_should_close_position`. -/
inductive CloseReason where
  /-- "Достигнута целевая прибыль ...%" (line 672) -/
  | profitTarget
  /-- "Сработал стоп-лосс ...%" (line 677) -/
  | stopLoss
  /-- "Превышено максимальное время удержания (...ч)" (line 685) -/
  | timeout
  /-- "Условия закрытия не выполнены" (line 687) -/
  | notMet
deriving Repr, DecidableEq

/-- `pnl_percent = ((current_price - entry_price) / entry_price) * 100`
(check_and_close_positions, line 649). -/
def pnlPercent (entry_price current_price : ℚ) : ℚ :=
  ((current_price - entry_price) / entry_price) * 100

/-- `PolymarketClient._should_close_position` (lines 666-687).  `now` is
`datetime.utcnow()` and `position.created_at` the parsed `created_at`, both as
epoch seconds; `hours_open` is their difference over 3600. -/
def should_close_position (cfg : TradingConfig) (p : Position)
    (current_price : ℚ) (pnl_percent : ℚ) (now : ℚ) : Bool × CloseReason :=
  let _ := current_price
  let target_profit := p.target_profit.getD cfg.PROFIT_TARGET_PERCENT
  if pnl_percent ≥ target_profit then (true, CloseReason.profitTarget)
  else
    let stop_loss := p.stop_loss.getD cfg.STOP_LOSS_PERCENT
    if pnl_percent ≤ stop_loss then (true, CloseReason.stopLoss)
    else
      let hours_open := (now - p.created_at) / 3600
      let max_hours := (cfg.MAX_POSITION_HOURS : ℚ)
      if hours_open ≥ max_hours then (true, CloseReason.timeout)
      else (false, CloseReason.notMet)

/-- The per-position close decision made by `check_and_close_positions`
(lines 639-652): compute `pnl_percent` from the current price and delegate to
`_should_close_position`. -/
def evaluate_position_close (cfg : TradingConfig) (p : Position)
    (current_price : ℚ) (now : ℚ) : Bool × CloseReason :=
  should_close_position cfg p current_price
    (pnlPercent p.entry_price current_price) now

/-! ## Balance aggregation (`polymarket_client.py` 240-503) -/

/-- Environment of `get_account_balance`: the configured addresses and the
results of the three balance sources for any address
(`_get_positions_value`, the free-USDC component of `_get_free_usdc_balance`,
and `_check_usdc_balance_for_address`).  Each source catches its own
exceptions and returns `None` on failure, so `Option ℚ` is its exact result
type. -/
structure BalanceEnv where
  proxy_address : Option String := none
  account_address : Option String := none
  positionsValue : String → Option ℚ
  freeUsdc : String → Option ℚ
  directUsdc : String → Option ℚ

/-- Python truthiness-and-positivity test `x and x > 0` on an optional float. -/
def optPos (o : Option ℚ) : Bool :=
  match o with
  | some v => decide (0 < v)
  | none => false

/-- The `total_balance` accumulated for one address in the loop of
`get_account_balance` (lines 282-291). -/
def addr_total_balance (env : BalanceEnv) (a : String) : ℚ :=
  (if optPos (env.positionsValue a) then (env.positionsValue a).getD 0 else 0) +
  (if optPos (env.freeUsdc a) then (env.freeUsdc a).getD 0
   else if optPos (env.directUsdc a) then (env.directUsdc a).getD 0 else 0)

/-- The loop of `_get_balance_fallback` (lines 492-499): first address whose
direct USDC balance is truthy and positive, else `0.0`. -/
def fallback_loop (env : BalanceEnv) : List String → ℚ
  | [] => 0
  | a :: rest =>
    if optPos (env.directUsdc a) then (env.directUsdc a).getD 0
    else fallback_loop env rest

/-- `PolymarketClient._get_balance_fallback` (lines 476-503): main address
first, then the proxy address. -/
def get_balance_fallback (env : BalanceEnv) : ℚ :=
  fallback_loop env
    ((match env.account_address with | some a => [a] | none => []) ++
     (match env.proxy_address with | some a => [a] | none => []))

/-- The address loop of `get_account_balance` (lines 264-295): return the
first positive per-address total, else fall through to the fallback. -/
def balance_loop (env : BalanceEnv) : List String → ℚ
  | [] => get_balance_fallback env
  | a :: rest =>
    let total_balance := addr_total_balance env a
    if 0 < total_balance then total_balance else balance_loop env rest

/-- `PolymarketClient.get_account_balance` (lines 240-303): proxy address
first, then the main address; the whole body is wrapped in
`try/except` returning `0.0`, so the function is total. -/
def get_account_balance (env : BalanceEnv) : ℚ :=
  balance_loop env
    ((match env.proxy_address with | some a => [a] | none => []) ++
     (match env.account_address with | some a => [a] | none => []))

/-! ## Balance monitoring (`PolymarketClient.monitor_balance`, lines 505-554) -/

/-- Telegram notices that one `monitor_balance` tick can emit. -/
inductive BalNotice where
  /-- "Значительное изменение баланса" (line 531) -/
  | significantChange
  /-- "Критически низкий баланс!" (line 543) -/
  | lowBalance
deriving Repr, DecidableEq

/-- `self._previous_balance`, absent before the first tick
(`hasattr` check, line 517). -/
structure BalanceMonitorState where
  previous_balance : Option ℚ := none
deriving Repr

/-- The guarded relative change of line 524:
`abs(balance_change) / previous * 100 if previous > 0 else 0`. -/
def change_percent (previous current : ℚ) : ℚ :=
  if 0 < previous then |current - previous| / previous * 100 else 0

/-- One tick of `PolymarketClient.monitor_balance` (lines 505-554), given the
freshly fetched `current_balance`.  Returns the new state and the notices
sent. -/
def monitor_balance (s : BalanceMonitorState) (current_balance : ℚ) :
    BalanceMonitorState × List BalNotice :=
  match s.previous_balance with
  | none => ({previous_balance := some current_balance}, [])
  | some previous =>
    let cp := change_percent previous current_balance
    let significant := if cp ≥ 5 then [BalNotice.significantChange] else []
    let low := if current_balance < 5 then [BalNotice.lowBalance] else []
    ({previous_balance := some current_balance}, significant ++ low)

/-! ## Websocket handler (`PolymarketClient._stable_websocket_handler`,
polymarket_client.py 754-938)

The handler is an infinite loop; we embed one loop iteration's effect on the
local state `(connection_attempts, websocket_enabled)` and the Telegram
notices it sends, driven by the outcome of the connection attempt. -/

/-- The websocket-related configuration read by the handler
(`PolymarketConfig.WEBSOCKET_MAX_ATTEMPTS`, default 10, and
`WEBSOCKET_FALLBACK_ENABLED`, default True). -/
structure WsConfig where
  max_attempts : ℕ := 10
  fallback_enabled : Bool := true
deriving Repr

/-- Local state of the handler loop (lines 757, 761). -/
structure WsState where
  connection_attempts : ℕ := 0
  websocket_enabled : Bool := true
deriving Repr, DecidableEq

/-- Initial local state (lines 757-761): zero attempts, websocket enabled. -/
def wsInit : WsState := {}

/-- Telegram notices the handler can send. -/
inductive WsNotice where
  /-- "WebSocket недоступен / Переключение на HTTP polling" (lines 922-928) -/
  | enteredFallback
  /-- "WebSocket восстановлен" (lines 862-867) -/
  | restored
deriving Repr, DecidableEq

/-- Outcome of one iteration of the `while self.is_running` loop. -/
inductive WsEvent where
  /-- `websockets.connect` yielded a connection and the subscription was sent
  (lines 845-867). -/
  | subscribed
  /-- The connection attempt raised (lines 911-938). -/
  | connectFailed
deriving Repr, DecidableEq

/-- Hard-coded backoff parameters of the handler: `base_delay = 1` (line 759)
and `max_delay = 60` (line 760). -/
def base_delay : ℚ := 1

/-- `max_delay = 60` (line 760). -/
def max_delay : ℚ := 60

/-- Line 935: `delay = min(base_delay * (2 ** min(connection_attempts, 6)) +
random.uniform(0, 1), max_delay)`, with the jitter an arbitrary value in
`[0, 1)`. -/
def backoff_delay (connection_attempts : ℕ) (jitter : ℚ) : ℚ :=
  min (base_delay * 2 ^ (min connection_attempts 6) + jitter) max_delay

/-- One loop iteration of `_stable_websocket_handler`, as a transition on the
local state emitting Telegram notices.

* On `subscribed` (lines 845-867): `connection_attempts` is assigned 0 at
  line 847 and only afterwards line 860 tests `if connection_attempts > 0`
  to decide whether to send the "restored" message; the embedding reproduces
  that assignment order.
* On `connectFailed` (lines 911-938): the counter is incremented; when it
  reaches `max_attempts` the handler either degrades to HTTP polling and
  sends the fallback notice (fallback enabled) or resets the counter
  (fallback disabled).
* When the iteration starts with `websocket_enabled = False` (lines
  766-778), the handler polls over HTTP, re-enables the websocket and emits
  nothing; the events above then describe the following connection attempt. -/
def ws_step (cfg : WsConfig) (s : WsState) (e : WsEvent) :
    WsState × List WsNotice :=
  match e with
  | WsEvent.subscribed =>
    let connection_attempts := 0
    let notices :=
      if connection_attempts > 0 then [WsNotice.restored] else []
    ({connection_attempts := connection_attempts,
      websocket_enabled := s.websocket_enabled}, notices)
  | WsEvent.connectFailed =>
    let a := s.connection_attempts + 1
    if a ≥ cfg.max_attempts then
      if cfg.fallback_enabled then
        ({connection_attempts := a, websocket_enabled := false},
         [WsNotice.enteredFallback])
      else
        ({connection_attempts := 0,
          websocket_enabled := s.websocket_enabled}, [])
    else
      ({connection_attempts := a,
        websocket_enabled := s.websocket_enabled}, [])

/-- Run the handler over a sequence of iteration outcomes, collecting all
notices in order. -/
def ws_run (cfg : WsConfig) (s : WsState) : List WsEvent → WsState × List WsNotice
  | [] => (s, [])
  | e :: es =>
    let r := ws_step cfg s e
    let rest := ws_run cfg r.1 es
    (rest.1, r.2 ++ rest.2)

/-! ## Shared sample values for concrete scenarios -/

/-- Scenario B's position: entry price 0.40, no per-position overrides, so the
config defaults (target 10%, stop -20%) apply; opened at epoch 0. -/
def scenarioPosition : Position := {entry_price := 2/5, created_at := 0}

/-- Scenario A's market: id "m1", two tokens (YES/NO), active, accepting
orders, not closed. -/
def sampleMarket : Market :=
  {question_id := some "m1",
   tokens := [{name := "YES", id := some "t-yes"}, {name := "NO", id := some "t-no"}],
   active := true, accepting_orders := true, closed := false}

/-- Filter state after the first (accepted) `should_trade_market` call on
`sampleMarket` from the fresh state at time 0. -/
def firstCallState : MarketFilter :=
  (should_trade_market defaultTradingConfig {} 0 sampleMarket).1

/-- `firstCallState` after `_attempt_trade` succeeded and marked "m1" as
having an open position (trading_engine.py lines 328-331). -/
def positionHeldState : MarketFilter :=
  {firstCallState with markets_with_positions := ["m1"]}

/-- Scenario C's websocket configuration: `WEBSOCKET_MAX_ATTEMPTS = 3`,
fallback enabled. -/
def wsCfg3 : WsConfig := {max_attempts := 3, fallback_enabled := true}

/-! ## Helper lemmas -/

/-- Looking a key up in a filtered association list is unchanged when the
predicate keeps every pair carrying that key. -/
theorem lookup_filter_of_keeps {β : Type} (i : String) (p : String × β → Bool) :
    ∀ l : List (String × β), (∀ q ∈ l, q.1 = i → p q = true) →
      List.lookup i (l.filter p) = List.lookup i l := by
  intro l
  induction l with
  | nil => intro _; rfl
  | cons q rest ih =>
    intro h
    by_cases hq : q.1 = i
    · have hp : p q = true := h q (by simp) hq
      simp [List.filter_cons, hp, List.lookup, hq]
    · have hne : (i == q.1) = false := by
        simp [beq_eq_false_iff_ne]
        exact fun he => hq he.symm
      rcases hpq : p q with _ | _
      · simp [List.filter_cons, hpq, List.lookup, hne]
        have := ih (fun r hr hri => h r (by simp [hr]) hri)
        simpa [List.lookup, hne] using this
      · simp [List.filter_cons, hpq, List.lookup, hne]
        exact ih (fun r hr hri => h r (by simp [hr]) hri)

/-- A truthy-positive optional value is non-negative once defaulted. -/
theorem optPos_getD_nonneg (o : Option ℚ) (h : optPos o = true) :
    (0 : ℚ) ≤ o.getD 0 := by
  cases o with
  | none => simp [optPos] at h
  | some v =>
    simp only [optPos, decide_eq_true_eq] at h
    simpa using le_of_lt h

/-- The fallback loop of `_get_balance_fallback` never returns a negative
value. -/
theorem fallback_loop_nonneg (env : BalanceEnv) :
    ∀ l : List String, 0 ≤ fallback_loop env l := by
  intro l
  induction l with
  | nil => simp [fallback_loop]
  | cons a rest ih =>
    rcases h : optPos (env.directUsdc a) with _ | _
    · simpa [fallback_loop, h] using ih
    · simpa [fallback_loop, h] using optPos_getD_nonneg _ h

/-- `_get_balance_fallback` never returns a negative value. -/
theorem get_balance_fallback_nonneg (env : BalanceEnv) :
    0 ≤ get_balance_fallback env :=
  fallback_loop_nonneg env _

/-- The address loop of `get_account_balance` never returns a negative
value. -/
theorem balance_loop_nonneg (env : BalanceEnv) :
    ∀ l : List String, 0 ≤ balance_loop env l := by
  intro l
  induction l with
  | nil => simpa [balance_loop] using get_balance_fallback_nonneg env
  | cons a rest ih =>
    by_cases h : 0 < addr_total_balance env a
    · simpa [balance_loop, h] using le_of_lt h
    · simpa [balance_loop, h] using ih

/-- When no direct-USDC source is truthy-positive the fallback loop returns
the sentinel. -/
theorem fallback_loop_zero (env : BalanceEnv)
    (h : ∀ a : String, optPos (env.directUsdc a) = false) :
    ∀ l : List String, fallback_loop env l = 0 := by
  intro l
  induction l with
  | nil => rfl
  | cons a rest ih => simp [fallback_loop, h a, ih]

/-- When no source is truthy-positive, a per-address total is zero. -/
theorem addr_total_balance_zero (env : BalanceEnv) (a : String)
    (h1 : optPos (env.positionsValue a) = false)
    (h2 : optPos (env.freeUsdc a) = false)
    (h3 : optPos (env.directUsdc a) = false) :
    addr_total_balance env a = 0 := by
  simp [addr_total_balance, h1, h2, h3]

/-! ## Claims -/

/-- C1: the close decision is computed with fixed priority — profit target
(pnl% ≥ target) first, then stop-loss (pnl% ≤ stop), then the holding-time
limit, otherwise no close; and on Scenario B's position (entry 0.40, target
10%, stop -20%) price 0.46 closes on the profit target, price 0.30 on the
stop-loss, and price 0.41 at age 25h with a 24h limit on the timeout. -/
theorem c1_close_priority (cfg : TradingConfig) (p : Position) (current now : ℚ) :
    (pnlPercent p.entry_price current ≥ p.target_profit.getD cfg.PROFIT_TARGET_PERCENT →
      evaluate_position_close cfg p current now = (true, CloseReason.profitTarget)) ∧
    (pnlPercent p.entry_price current < p.target_profit.getD cfg.PROFIT_TARGET_PERCENT →
      pnlPercent p.entry_price current ≤ p.stop_loss.getD cfg.STOP_LOSS_PERCENT →
      evaluate_position_close cfg p current now = (true, CloseReason.stopLoss)) ∧
    (pnlPercent p.entry_price current < p.target_profit.getD cfg.PROFIT_TARGET_PERCENT →
      p.stop_loss.getD cfg.STOP_LOSS_PERCENT < pnlPercent p.entry_price current →
      (now - p.created_at) / 3600 ≥ (cfg.MAX_POSITION_HOURS : ℚ) →
      evaluate_position_close cfg p current now = (true, CloseReason.timeout)) ∧
    (pnlPercent p.entry_price current < p.target_profit.getD cfg.PROFIT_TARGET_PERCENT →
      p.stop_loss.getD cfg.STOP_LOSS_PERCENT < pnlPercent p.entry_price current →
      (now - p.created_at) / 3600 < (cfg.MAX_POSITION_HOURS : ℚ) →
      evaluate_position_close cfg p current now = (false, CloseReason.notMet)) ∧
    evaluate_position_close defaultTradingConfig scenarioPosition (46/100) 0 =
      (true, CloseReason.profitTarget) ∧
    evaluate_position_close defaultTradingConfig scenarioPosition (30/100) 0 =
      (true, CloseReason.stopLoss) ∧
    evaluate_position_close defaultTradingConfig scenarioPosition (41/100) (25 * 3600) =
      (true, CloseReason.timeout) := by
  refine ⟨?_, ?_, ?_, ?_,
    by norm_num [evaluate_position_close, should_close_position, pnlPercent,
      scenarioPosition, defaultTradingConfig],
    by norm_num [evaluate_position_close, should_close_position, pnlPercent,
      scenarioPosition, defaultTradingConfig],
    by norm_num [evaluate_position_close, should_close_position, pnlPercent,
      scenarioPosition, defaultTradingConfig]⟩
  · intro h
    simp only [evaluate_position_close, should_close_position]
    rw [if_pos h]
  · intro h1 h2
    simp only [evaluate_position_close, should_close_position]
    rw [if_neg (not_le.mpr h1), if_pos h2]
  · intro h1 h2 h3
    simp only [evaluate_position_close, should_close_position]
    rw [if_neg (not_le.mpr h1), if_neg (not_le.mpr h2), if_pos h3]
  · intro h1 h2 h3
    simp only [evaluate_position_close, should_close_position]
    rw [if_neg (not_le.mpr h1), if_neg (not_le.mpr h2), if_neg (not_le.mpr h3)]

/-- Witness for C1 at Scenario B's profit-target input. -/
theorem c1_close_priority_witness :
    evaluate_position_close defaultTradingConfig scenarioPosition (46/100) 0 =
      (true, CloseReason.profitTarget) :=
  (c1_close_priority defaultTradingConfig scenarioPosition (46/100) 0).1
    (by norm_num [pnlPercent, scenarioPosition, defaultTradingConfig])

/-- C9: a market record with no usable id field is rejected by
`should_trade_market` with the missing-id reason, and the filter state is
returned unchanged. -/
theorem c9_missing_id_no_change (cfg : TradingConfig) (s : MarketFilter)
    (now : ℚ) (m : Market) (h1 : m.question_id = none)
    (h2 : m.condition_id = none) (h3 : m.market_slug = none) :
    should_trade_market cfg s now m = (s, false, Reason.missingId) := by
  have hid : marketId m = none := by simp [marketId, truthyStr, h1, h2, h3]
  simp [should_trade_market, hid]

/-- Witness for C9: an id-less binary market against a populated filter
state. -/
theorem c9_missing_id_no_change_witness :
    should_trade_market defaultTradingConfig
      {processed_markets := ["x"], known_markets := ["y"],
       new_markets_timestamps := [("y", 3)], markets_with_positions := ["z"]}
      5
      {tokens := [{name := "YES"}, {name := "NO"}],
       active := true, accepting_orders := true, closed := false} =
    ({processed_markets := ["x"], known_markets := ["y"],
      new_markets_timestamps := [("y", 3)], markets_with_positions := ["z"]},
     false, Reason.missingId) :=
  c9_missing_id_no_change defaultTradingConfig _ 5 _ rfl rfl rfl

/-- C10: when the stored previous balance is 0 the guarded relative change is
defined as 0, so a `monitor_balance` tick never emits the
significant-change alert, whatever the new balance is. -/
theorem c10_zero_previous_no_alert (s : BalanceMonitorState) (current : ℚ)
    (h : s.previous_balance = some 0) :
    change_percent 0 current = 0 ∧
    BalNotice.significantChange ∉ (monitor_balance s current).2 := by
  have hcp : change_percent 0 current = 0 := by simp [change_percent]
  refine ⟨hcp, ?_⟩
  have h5 : ¬((5 : ℚ) ≤ change_percent 0 current) := by rw [hcp]; norm_num
  simp only [monitor_balance, h]
  rw [if_neg h5]
  by_cases hlow : current < 5 <;> simp [hlow]

/-- Witness for C10: previous balance 0, new balance 100. -/
theorem c10_zero_previous_no_alert_witness :
    change_percent 0 100 = 0 ∧
    BalNotice.significantChange ∉
      (monitor_balance {previous_balance := some 0} 100).2 :=
  c10_zero_previous_no_alert {previous_balance := some 0} 100 rfl

/-- C4: a market id with an open position always passes `check_time_window`
(with the active-position reason and no state change), whatever the current
time and the discovery cache contain, and `cleanup_old_markets` never removes
that id's entry from the discovery-timestamp cache. -/
theorem c4_active_position_never_blocked (cfg : TradingConfig)
    (s : MarketFilter) (now : ℚ) (m : Market) (i : String)
    (hid : marketId m = some i) (hpos : i ∈ s.markets_with_positions) :
    check_time_window cfg s now m = (s, true, Reason.activePosition) ∧
    List.lookup i (cleanup_old_markets cfg s now).new_markets_timestamps =
      List.lookup i s.new_markets_timestamps := by
  constructor
  · simp [check_time_window, hid, hpos]
  · simp only [cleanup_old_markets]
    apply lookup_filter_of_keeps
    intro q _ hqi
    simp [hqi, hpos]

/-- Witness for C4: market "m1" holds a position, was discovered at time 0,
and is checked an hour later with a 10-minute window. -/
theorem c4_active_position_never_blocked_witness :
    check_time_window defaultTradingConfig
        {known_markets := ["m1"], new_markets_timestamps := [("m1", 0)],
         markets_with_positions := ["m1"]} 3600 {question_id := some "m1"} =
      ({known_markets := ["m1"], new_markets_timestamps := [("m1", 0)],
        markets_with_positions := ["m1"]}, true, Reason.activePosition) ∧
    List.lookup "m1"
        (cleanup_old_markets defaultTradingConfig
          {known_markets := ["m1"], new_markets_timestamps := [("m1", 0)],
           markets_with_positions := ["m1"]} 3600).new_markets_timestamps =
      List.lookup "m1"
        ({known_markets := ["m1"], new_markets_timestamps := [("m1", 0)],
          markets_with_positions := ["m1"]} :
          MarketFilter).new_markets_timestamps :=
  c4_active_position_never_blocked defaultTradingConfig _ 3600 _ "m1" rfl
    (by simp)

/-- C2 counterexample: after `sampleMarket` is accepted once and marked as
having an open position, the identical second call is still rejected — the
`processed_markets` check fires before the open-position exemption, so the
membership in `markets_with_positions` does not prevent the rejection the
claim's "unless" clause promises. -/
theorem c2_counterexample :
    (should_trade_market defaultTradingConfig {} 0 sampleMarket).2.1 = true ∧
    "m1" ∈ positionHeldState.markets_with_positions ∧
    (should_trade_market defaultTradingConfig positionHeldState 60
        sampleMarket).2.1 = false ∧
    (should_trade_market defaultTradingConfig positionHeldState 60
        sampleMarket).2.2 = Reason.alreadyProcessed :=
  ⟨rfl, by simp [positionHeldState], rfl, rfl⟩

/-- C2 (amended): an accepted `should_trade_market` call puts the market id
into `processed_markets`, and any later call on a market with that id returns
false with the previously-seen reason ("Рынок уже обработан") and an
unchanged state — even when the id is in `markets_with_positions`, because
that set only bypasses the time-window check, not the processed-markets
rejection. -/
theorem c2_previously_seen (cfg : TradingConfig) :
    (∀ (s : MarketFilter) (now : ℚ) (m : Market) (i : String),
      marketId m = some i →
      (should_trade_market cfg s now m).2.1 = true →
      i ∈ (should_trade_market cfg s now m).1.processed_markets) ∧
    (∀ (s : MarketFilter) (now : ℚ) (m : Market) (i : String),
      marketId m = some i → i ∈ s.processed_markets →
      should_trade_market cfg s now m = (s, false, Reason.alreadyProcessed)) := by
  constructor
  · intro s now m i hid hacc
    simp only [should_trade_market, hid] at hacc ⊢
    split_ifs at hacc ⊢ with h1 h2 h3 h4
    all_goals exact List.mem_cons_self _ _
  · intro s now m i hid hproc
    simp [should_trade_market, hid, hproc]

/-- Witness for C2: the amended behaviour at Scenario A's concrete market. -/
theorem c2_previously_seen_witness :
    "m1" ∈ (should_trade_market defaultTradingConfig {} 0
      sampleMarket).1.processed_markets ∧
    should_trade_market defaultTradingConfig
        {processed_markets := ["m1"], markets_with_positions := ["m1"]} 60
        sampleMarket =
      ({processed_markets := ["m1"], markets_with_positions := ["m1"]},
       false, Reason.alreadyProcessed) :=
  ⟨(c2_previously_seen defaultTradingConfig).1 {} 0 sampleMarket "m1" rfl rfl,
   (c2_previously_seen defaultTradingConfig).2
     {processed_markets := ["m1"], markets_with_positions := ["m1"]} 60
     sampleMarket "m1" rfl (by simp)⟩

/-- C3 counterexample: a market whose token count is 3 but which carries no
id field is rejected with the missing-id reason, not the not-binary reason,
so the unrestricted claim fails. -/
theorem c3_counterexample :
    ({tokens := [{}, {}, {}]} : Market).tokens.length = 3 ∧
    should_trade_market defaultTradingConfig {} 0 {tokens := [{}, {}, {}]} =
      ({}, false, Reason.missingId) ∧
    Reason.missingId ≠ Reason.notBinary :=
  ⟨rfl, rfl, by simp⟩

/-- C3 (amended): a market record that has a usable id not yet in
`processed_markets` and whose token count (the `tokens` list when non-empty,
else the `outcomes` fallback) is not 2 is rejected by `should_trade_market`
with the not-binary reason and an unchanged state. -/
theorem c3_not_binary (cfg : TradingConfig) (s : MarketFilter) (now : ℚ)
    (m : Market) (i : String) (hid : marketId m = some i)
    (hproc : i ∉ s.processed_markets)
    (hcount : (if m.tokens.isEmpty then m.outcomes.length
               else m.tokens.length) ≠ 2) :
    should_trade_market cfg s now m = (s, false, Reason.notBinary) := by
  have hb : is_binary_market m = false := by
    rcases htk : m.tokens with _ | ⟨t, ts⟩
    · rw [htk] at hcount
      simp at hcount
      simpa [is_binary_market, htk, decide_eq_false_iff_not] using hcount
    · rw [htk] at hcount
      simp at hcount
      simpa [is_binary_market, htk, decide_eq_false_iff_not] using hcount
  simp [should_trade_market, hid, hproc, hb]

/-- Witness for C3: a three-token market with an id against the fresh
state. -/
theorem c3_not_binary_witness :
    should_trade_market defaultTradingConfig {} 0
        {question_id := some "m3", tokens := [{}, {}, {}]} =
      ({}, false, Reason.notBinary) :=
  c3_not_binary defaultTradingConfig {} 0 _ "m3" rfl (by simp) (by simp)

/-- C5: `_attempt_trade` sizes the order as
`min(POSITION_SIZE_USD, balance * MAX_POSITION_PERCENT_OF_BALANCE / 100) /
price` — but `MAX_POSITION_PERCENT_OF_BALANCE` is not a declared field of
`TradingConfig` (settings.py lines 13-83, pydantic `extra="ignore"`), so for
every call that survives the price-ceiling and balance guards the attribute
read at trading_engine.py line 312 raises `AttributeError` and no order is
ever placed. -/
theorem c5_size_attr_missing (cfg : TradingConfig) (env : TradeEnv)
    (s : MarketFilter) (m : Market) (tid : String) (p : ℚ)
    (htid : truthyStr (get_target_token_id cfg m) = some tid)
    (hp : env.price tid = some p) (hp0 : ¬(p = 0))
    (hceil : ¬(cfg.POSITION_SIDE = "NO" ∧ p > cfg.MAX_NO_PRICE))
    (hbal : ¬(env.balance = 0)) :
    "MAX_POSITION_PERCENT_OF_BALANCE" ∉ tradingConfigFieldNames ∧
    tradingGetNumAttr cfg "MAX_POSITION_PERCENT_OF_BALANCE" = none ∧
    attempt_trade cfg env true s m =
      Except.error (PyErr.attributeError "MAX_POSITION_PERCENT_OF_BALANCE") := by
  refine ⟨by simp [tradingConfigFieldNames], by simp [tradingGetNumAttr], ?_⟩
  have hc : (decide (cfg.POSITION_SIDE = "NO") &&
      decide (p > cfg.MAX_NO_PRICE)) = false := by
    rcases hside : decide (cfg.POSITION_SIDE = "NO") with _ | _
    · simp
    · rcases hgt : decide (p > cfg.MAX_NO_PRICE) with _ | _
      · simp
      · exact absurd ⟨of_decide_eq_true hside, of_decide_eq_true hgt⟩ hceil
  simp [attempt_trade, htid, hp, hp0, hbal, hc, tradingGetNumAttr]

/-- Witness for C5: side NO, a NO token with id, price 0.5, balance 100. -/
theorem c5_size_attr_missing_witness :
    "MAX_POSITION_PERCENT_OF_BALANCE" ∉ tradingConfigFieldNames ∧
    tradingGetNumAttr defaultTradingConfig "MAX_POSITION_PERCENT_OF_BALANCE" =
      none ∧
    attempt_trade defaultTradingConfig
        {price := fun _ => some (1/2), balance := 100, orderSucceeds := true}
        true {} sampleMarket =
      Except.error (PyErr.attributeError "MAX_POSITION_PERCENT_OF_BALANCE") :=
  c5_size_attr_missing defaultTradingConfig
    {price := fun _ => some (1/2), balance := 100, orderSucceeds := true}
    {} sampleMarket "t-no" (1/2) rfl rfl (by norm_num)
    (by rintro ⟨-, hgt⟩; norm_num [defaultTradingConfig] at hgt)
    (by norm_num)

/-- C6 evaluation: with `WEBSOCKET_MAX_ATTEMPTS = 3` and fallback enabled,
three consecutive connection failures emit exactly one entered-fallback
notice (only at the crossing), but the following successful subscribed
transition emits no restored notice at all — `connection_attempts` is
assigned 0 (line 847) before the `if connection_attempts > 0` guard
(line 860) that was meant to send it, so no `subscribed` transition ever
emits the restored notice. -/
theorem c6_fallback_once_restored_never :
    (ws_run wsCfg3 wsInit
        [WsEvent.connectFailed, WsEvent.connectFailed,
         WsEvent.connectFailed]).2 = [WsNotice.enteredFallback] ∧
    (ws_step wsCfg3
        (ws_run wsCfg3 wsInit
          [WsEvent.connectFailed, WsEvent.connectFailed,
           WsEvent.connectFailed]).1 WsEvent.subscribed).2 = [] ∧
    (∀ (cfg : WsConfig) (s : WsState),
      (ws_step cfg s WsEvent.subscribed).2 = []) :=
  ⟨rfl, rfl, fun _ _ => rfl⟩

/-- C7: the backoff delay of line 935 (jitter in [0,1) included) is
non-decreasing over consecutive failed attempts 1..6 and bounded by
`max_delay + 1`, and a successful subscribed transition resets the attempt
counter to 0. -/
theorem c7_backoff_monotone_bounded (n : ℕ) (j j' : ℚ) (h1 : 1 ≤ n)
    (h6 : n ≤ 6) (hj0 : 0 ≤ j) (hj1 : j < 1) (hj'0 : 0 ≤ j') (hj'1 : j' < 1) :
    backoff_delay n j ≤ max_delay + 1 ∧
    (n < 6 → backoff_delay n j ≤ backoff_delay (n + 1) j') ∧
    (∀ (cfg : WsConfig) (s : WsState),
      (ws_step cfg s WsEvent.subscribed).1.connection_attempts = 0) := by
  refine ⟨?_, ?_, fun _ _ => rfl⟩
  · calc backoff_delay n j ≤ max_delay := min_le_right _ _
    _ ≤ max_delay + 1 := by norm_num
  · intro hn
    have e1 : min n 6 = n := Nat.min_eq_left h6
    have e2 : min (n + 1) 6 = n + 1 := Nat.min_eq_left (by omega)
    unfold backoff_delay
    rw [e1, e2]
    refine min_le_min ?_ le_rfl
    have h2n : (1 : ℚ) ≤ 2 ^ n := by
      calc (1 : ℚ) = 1 ^ n := (one_pow n).symm
      _ ≤ 2 ^ n := pow_le_pow_left₀ (by norm_num) (by norm_num) n
    have hsucc : (2 : ℚ) ^ (n + 1) = 2 * 2 ^ n := by ring
    rw [hsucc]
    unfold base_delay
    linarith

/-- Witness for C7 at attempt 2 with jitters 1/2 and 1/3. -/
theorem c7_backoff_monotone_bounded_witness :
    backoff_delay 2 (1/2) ≤ max_delay + 1 ∧
    (2 < 6 → backoff_delay 2 (1/2) ≤ backoff_delay 3 (1/3)) ∧
    (∀ (cfg : WsConfig) (s : WsState),
      (ws_step cfg s WsEvent.subscribed).1.connection_attempts = 0) :=
  c7_backoff_monotone_bounded 2 (1/2) (1/3) (by norm_num) (by norm_num)
    (by norm_num) (by norm_num) (by norm_num) (by norm_num)

/-- C8: `get_account_balance` is total (its body and every balance source
catch their own exceptions), always yields a non-negative amount, and when no
source yields a truthy positive value for any address it returns the sentinel
`0.0`. -/
theorem c8_balance_never_raises (env : BalanceEnv) :
    0 ≤ get_account_balance env ∧
    ((∀ a : String, optPos (env.positionsValue a) = false ∧
        optPos (env.freeUsdc a) = false ∧ optPos (env.directUsdc a) = false) →
      get_account_balance env = 0) := by
  constructor
  · exact balance_loop_nonneg env _
  · intro hall
    have hfb : get_balance_fallback env = 0 :=
      fallback_loop_zero env (fun a => (hall a).2.2) _
    have hloop : ∀ l : List String, balance_loop env l = 0 := by
      intro l
      induction l with
      | nil => simpa [balance_loop] using hfb
      | cons a rest ih =>
        have hz : addr_total_balance env a = 0 :=
          addr_total_balance_zero env a (hall a).1 (hall a).2.1 (hall a).2.2
        simp [balance_loop, hz, ih]
    exact hloop _

/-- Witness for C8: both addresses configured, every source failing. -/
theorem c8_balance_never_raises_witness :
    0 ≤ get_account_balance
        {proxy_address := some "0xproxy", account_address := some "0xmain",
         positionsValue := fun _ => none, freeUsdc := fun _ => none,
         directUsdc := fun _ => none} ∧
    get_account_balance
        {proxy_address := some "0xproxy", account_address := some "0xmain",
         positionsValue := fun _ => none, freeUsdc := fun _ => none,
         directUsdc := fun _ => none} = 0 :=
  ⟨(c8_balance_never_raises _).1,
   (c8_balance_never_raises _).2 (fun _ => ⟨rfl, rfl, rfl⟩)⟩

end MarktMonitor
